import Mathlib

/-!
Shallow embedding of the DarkOpt `Detector` component (`DarkOpt/_detector.py`).

The Python constructor `Detector.__init__` derives surface areas, coverage
fractions, efficiencies and the phonon-absorption time constant from an
absorber, a QET parameter holder (which composes a TES parameter holder) and
scalar layout parameters.  Floating-point arithmetic is idealised as real
arithmetic.  The two-way branch on the absorber shape string assigns the
attribute `_SA_passive` only for the tags "cylinder" and "square" (and, for
"square", only when the `passive` flag is 0 or 1); any other combination
leaves the attribute unset, so the constructor raises a missing-attribute
error at the first later use and no instance is produced.  This fallibility
is embedded by `SA_passive_opt : Option ℝ`, and the whole constructor by
`mkDet : ... → Option Detector`.
-/

namespace DarkOpt

noncomputable section

/-- TES parameter holder (`_TES.TES`): pre-solved electrothermal operating
parameters, consumed by the Detector and the noise simulator.  Modelled from
the spec: the class itself is not part of the given source tree; the spec
describes it as a plain holder of scalars with no internal computation. -/
structure TES where
  nTES : ℕ
  l : ℝ
  l_overlap : ℝ
  rl : ℝ
  r0 : ℝ
  rsh : ℝ
  beta : ℝ
  LG : ℝ
  L : ℝ
  tau0 : ℝ
  Gep : ℝ
  vbias : ℝ
  t0 : ℝ
  tload : ℝ
  t_mc : ℝ
  n : ℝ
deriving Inhabited

/-- QET parameter holder (`_QET.QET`): per-sensor fin geometry and the two
quasiparticle efficiencies; composes one TES holder.  Modelled from the spec:
the class itself is not part of the given source tree. -/
structure QET where
  l_fin : ℝ
  h_fin : ℝ
  a_fin : ℝ
  eQPabsb : ℝ
  ePQP : ℝ
  TES : TES
deriving Inhabited

/-- Absorber geometry provider.  Modelled from the spec: the class itself is
not part of the given source tree; the detector code reads its total surface
area (`get_SA`), pattern surface area (`get_pattern_SA`), outer radius
(`get_R` / `_r`), safety margin (`get_w_safety` / `_w_safety`), shape tag
(`_shape`) and phonon scattering length (`scattering_length`). -/
structure Absorber where
  SA : ℝ
  pattern_SA : ℝ
  R : ℝ
  w_safety : ℝ
  shape : String
  scattering_length : ℝ
deriving Inhabited

/-- Noise-model parameter record: the arguments the constructor passes to the
external `qetpy.sim.TESnoise` (held for the detector lifetime). -/
structure TESnoise where
  freqs : List ℝ
  rload : ℝ
  r0 : ℝ
  rshunt : ℝ
  beta : ℝ
  loopgain : ℝ
  inductance : ℝ
  tau0 : ℝ
  G : ℝ
  qetbias : ℝ
  tc : ℝ
  tload : ℝ
  tbath : ℝ
  n : ℝ
deriving Inhabited

/-- Width of the main bias rails (`self._w_rail_main = 6e-6`). -/
def w_rail_main : ℝ := 6e-6

/-- Width of the QET rails (`self._w_railQET = 3e-6`). -/
def w_railQET : ℝ := 3e-6

/-- Surface area covered by QET fins:
`self._SA_active = n_channel * tes.nTES * QET.a_fin`. -/
def SA_active (qet : QET) (n_channel : ℕ) : ℝ :=
  (n_channel : ℝ) * (qet.TES.nTES : ℝ) * qet.a_fin

/-- Average area per cell:
`a_cell = absorber.get_pattern_SA() / (n_channel * tes.nTES)`. -/
def a_cell (absorber : Absorber) (qet : QET) (n_channel : ℕ) : ℝ :=
  absorber.pattern_SA / ((n_channel : ℝ) * (qet.TES.nTES : ℝ))

/-- Footprint of one QET block:
`QET_block = (2*QET.l_fin + tes.l)*(2*QET.l_fin)`. -/
def QET_block (qet : QET) : ℝ :=
  (2 * qet.l_fin + qet.TES.l) * (2 * qet.l_fin)

/-- Packing feasibility flag: false when
`QET_block*tes.nTES > absorber.get_pattern_SA()`, true otherwise. -/
def cells_fit (absorber : Absorber) (qet : QET) : Bool :=
  if QET_block qet * (qet.TES.nTES : ℝ) > absorber.pattern_SA then false else true

/-- Cell length `self._l_cell = np.sqrt(a_cell)`. -/
def l_cell (absorber : Absorber) (qet : QET) (n_channel : ℕ) : ℝ :=
  Real.sqrt (a_cell absorber qet n_channel)

/-- Cell width `self._w_cell = np.sqrt(a_cell/2)`. -/
def w_cell (absorber : Absorber) (qet : QET) (n_channel : ℕ) : ℝ :=
  Real.sqrt (a_cell absorber qet n_channel / 2)

/-- Cell height `self._h_cell = 2*self._w_cell`. -/
def h_cell (absorber : Absorber) (qet : QET) (n_channel : ℕ) : ℝ :=
  2 * w_cell absorber qet n_channel

/-- Length of one QET: `y_cell = 2 * QET.l_fin + tes.l`. -/
def y_cell (qet : QET) : ℝ :=
  2 * qet.l_fin + qet.TES.l

/-- Per-cell passive rail area.  Not close packed (`l_cell > y_cell`):
`a_passiveQET = l_cell*w_rail_main + (l_cell - y_cell)*w_railQET`;
close packed: `x_cell = a_cell/y_cell; a_passiveQET = x_cell*w_rail_main`. -/
def a_passiveQET (absorber : Absorber) (qet : QET) (n_channel : ℕ) : ℝ :=
  if l_cell absorber qet n_channel > y_cell qet then
    l_cell absorber qet n_channel * w_rail_main
      + (l_cell absorber qet n_channel - y_cell qet) * w_railQET
  else
    (a_cell absorber qet n_channel / y_cell qet) * w_rail_main

/-- Packing classification flag `self._close_packed`: false when
`l_cell > y_cell`, true otherwise. -/
def close_packed (absorber : Absorber) (qet : QET) (n_channel : ℕ) : Bool :=
  if l_cell absorber qet n_channel > y_cell qet then false else true

/-- Passive area from sensor rails:
`tes_passive = a_passiveQET * n_channel * tes.nTES`. -/
def tes_passive (absorber : Absorber) (qet : QET) (n_channel : ℕ) : ℝ :=
  a_passiveQET absorber qet n_channel * (n_channel : ℝ) * (qet.TES.nTES : ℝ)

/-- `outer_ring = 2*pi*(R - w_safety)*w_rail_main`. -/
def outer_ring (absorber : Absorber) : ℝ :=
  2 * Real.pi * (absorber.R - absorber.w_safety) * w_rail_main

/-- `inner_ring = outer_ring / sqrt 2`. -/
def inner_ring (absorber : Absorber) : ℝ :=
  outer_ring absorber / Real.sqrt 2

/-- `inner_vertical_rail = 3*(R - w_safety)*w_rail_main*(1 - sqrt 2 / 2)`. -/
def inner_vertical_rail (absorber : Absorber) : ℝ :=
  3 * (absorber.R - absorber.w_safety) * w_rail_main * (1 - Real.sqrt 2 / 2)

/-- `outer_vertical_rail = (R - w_safety)*w_rail_main*(1 + sqrt 2 / 2)`. -/
def outer_vertical_rail (absorber : Absorber) : ℝ :=
  (absorber.R - absorber.w_safety) * w_rail_main * (1 + Real.sqrt 2 / 2)

/-- One alignment-mark window area `one_alignment_window = 20772e-12`. -/
def one_alignment_window : ℝ := 20772e-12

/-- `total_alignment = 5*one_alignment_window`. -/
def total_alignment : ℝ := 5 * one_alignment_window

/-- The value the constructor assigns to `self._SA_passive`, when it assigns
one.  The Python code runs two successive `if` statements: the first assigns
for shape "cylinder", the second assigns for shape "square" when the
`passive` flag is 1 or 0 (an `if`/`elif` with no `else`).  Any other
combination leaves the attribute unset, embedded here as `none`. -/
def SA_passive_opt (absorber : Absorber) (qet : QET) (passive : ℤ)
    (n_channel : ℕ) : Option ℝ :=
  let afterCylinder : Option ℝ :=
    if absorber.shape = "cylinder" then
      some (tes_passive absorber qet n_channel + outer_ring absorber
        + inner_ring absorber + inner_vertical_rail absorber
        + outer_vertical_rail absorber + total_alignment)
    else none
  if absorber.shape = "square" then
    if passive = 1 then
      some (tes_passive absorber qet n_channel
        + 2 * (absorber.R - 2 * absorber.w_safety) * w_rail_main
        + 2 * one_alignment_window)
    else if passive = 0 then
      some 0
    else afterCylinder
  else afterCylinder

/-- PD2 reference absorption time `PD2_absb_time = 20e-6`. -/
def PD2_absb_time : ℝ := 20e-6

/-- PD2 reference quasiparticle-absorbing fraction `PD2_fSA_qpabsb = 0.0214`. -/
def PD2_fSA_qpabsb : ℝ := 0.0214

/-- PD2 reference scattering length `PD2_lscat = 0.0019488`. -/
def PD2_lscat : ℝ := 0.0019488

/-- Combined efficiency constant `self._e156 = 0.8690`. -/
def e156 : ℝ := 0.8690

/-- Boltzmann constant, value of `scipy.constants.k`. -/
def boltzmann_k : ℝ := 1.380649e-23

/-- Local variable `pE_thresh = 2*1.76*constants.k*aluminum._Tc` in the
constructor, as a function of the aluminum critical temperature; it is a
local value, never assigned to `self`. -/
def pE_thresh (Tc : ℝ) : ℝ := 2 * 1.76 * boltzmann_k * Tc

/-- Local variable
`p_baresurface = (get_SA() - SA_active - SA_passive)/get_SA()`. -/
def p_baresurface (absorber : Absorber) (qet : QET) (SApas : ℝ)
    (n_channel : ℕ) : ℝ :=
  (absorber.SA - SA_active qet n_channel - SApas) / absorber.SA

/-- Local variable `p_subgap = p_baresurface**3000`. -/
def p_subgap (absorber : Absorber) (qet : QET) (SApas : ℝ)
    (n_channel : ℕ) : ℝ :=
  p_baresurface absorber qet SApas n_channel ^ (3000 : ℕ)

/-- Local variable `p_notsubgap = 1 - p_subgap`. -/
def p_notsubgap (absorber : Absorber) (qet : QET) (SApas : ℝ)
    (n_channel : ℕ) : ℝ :=
  1 - p_subgap absorber qet SApas n_channel

/-- The detector instance: one field per attribute the constructor assigns on
`self` (leading underscores dropped). -/
structure Detector where
  w_rail_main : ℝ
  w_railQET : ℝ
  name : String
  absorber : Absorber
  n_channel : ℕ
  l_fin : ℝ
  h_fin : ℝ
  l_overlap : ℝ
  sigma_energy : ℝ
  freqs : List ℝ
  eres : Option ℝ
  SA_active : ℝ
  cells_fit : Bool
  l_cell : ℝ
  w_cell : ℝ
  h_cell : ℝ
  close_packed : Bool
  total_alignment : ℝ
  SA_passive : ℝ
  fSA_qpabsorb : ℝ
  ePcollect : ℝ
  t_pabsb : ℝ
  w_collect : ℝ
  e_downconvert : ℝ
  e156 : ℝ
  eEabsb : ℝ
  fSA_active : ℝ
  fSA_passive : ℝ
  kpb : ℝ
  nkpb : ℕ
  noise : TESnoise
  QET : QET
deriving Inhabited

/-- The attribute names `Detector.__init__` assigns on `self`, in program
order (transcribed from the source; local variables of the constructor, such
as `a_cell`, `a_passiveQET`, `pE_thresh`, `p_baresurface`, `p_subgap` and
`p_notsubgap`, are not in this list because they are never assigned on
`self`). -/
def detectorInitAttrs : List String :=
  ["_w_rail_main", "_w_railQET", "_name", "_absorber", "_n_channel",
   "_l_fin", "_h_fin", "_l_overlap", "_sigma_energy", "QET", "freqs", "eres",
   "_SA_active", "_cells_fit", "_l_cell", "_w_cell", "_h_cell",
   "_close_packed", "total_alignment", "_SA_passive", "_fSA_qpabsorb",
   "_ePcollect", "_t_pabsb", "_w_collect", "_e_downconvert", "_e156",
   "_eEabsb", "fSA_active", "fSA_passive", "_kpb", "_nkpb", "noise"]

/-- The `qetpy.sim.TESnoise` argument record built by the constructor. -/
def mkTESnoise (tes : TES) (freqs : List ℝ) : TESnoise :=
  { freqs := freqs
    rload := tes.rl
    r0 := tes.r0
    rshunt := tes.rsh
    beta := tes.beta
    loopgain := tes.LG
    inductance := tes.L
    tau0 := tes.tau0
    G := tes.Gep
    qetbias := tes.vbias / tes.rsh
    tc := tes.t0
    tload := tes.tload
    tbath := tes.t_mc
    n := tes.n }

/-- `Detector.__init__`: returns `none` exactly when `_SA_passive` is never
assigned (unrecognized shape, or square shape with a passive flag outside
0 and 1), since the constructor then fails with a missing-attribute error at
the first later use of `_SA_passive` (computing `_fSA_qpabsorb`) and no
instance is produced.  `self._e_downconvert` is assigned `1/1000` and then
immediately overwritten with `1/4000`; the surviving value is stored. -/
def mkDet (name : String) (absorber : Absorber) (qet : QET) (passive : ℤ)
    (n_channel : ℕ) (freqs : List ℝ) : Option Detector :=
  (SA_passive_opt absorber qet passive n_channel).map (fun SApas =>
    { w_rail_main := w_rail_main
      w_railQET := w_railQET
      name := name
      absorber := absorber
      n_channel := n_channel
      l_fin := qet.l_fin
      h_fin := qet.h_fin
      l_overlap := qet.TES.l_overlap
      sigma_energy := 0
      freqs := freqs
      eres := none
      SA_active := SA_active qet n_channel
      cells_fit := cells_fit absorber qet
      l_cell := l_cell absorber qet n_channel
      w_cell := w_cell absorber qet n_channel
      h_cell := h_cell absorber qet n_channel
      close_packed := close_packed absorber qet n_channel
      total_alignment := total_alignment
      SA_passive := SApas
      fSA_qpabsorb := (SApas + SA_active qet n_channel) / absorber.SA
      ePcollect := SA_active qet n_channel / (SA_active qet n_channel + SApas)
      t_pabsb := PD2_absb_time * (absorber.scattering_length / PD2_lscat)
        * (PD2_fSA_qpabsb / ((SApas + SA_active qet n_channel) / absorber.SA))
      w_collect := 1 / (PD2_absb_time * (absorber.scattering_length / PD2_lscat)
        * (PD2_fSA_qpabsb / ((SApas + SA_active qet n_channel) / absorber.SA)))
      e_downconvert := 1 / 4000
      e156 := e156
      eEabsb := e156
        * (SA_active qet n_channel / (SA_active qet n_channel + SApas))
        * qet.eQPabsb * qet.ePQP
      fSA_active := SA_active qet n_channel / absorber.SA
      fSA_passive := SApas / absorber.SA
      kpb := 1.55e-4
      nkpb := 4
      noise := mkTESnoise qet.TES freqs
      QET := qet })

/-- `Detector.calc_res`: queries the stored noise object for its total power
spectral density and calls the external estimator
`qetpy.sim.energy_res_estimate(freqs, t_pabsb, noise.s_ptot(), eEabsb)`,
stores the scalar result as `eres` and returns it.  The two external pure
functions are passed as parameters. -/
def Detector.calc_res (sptot : TESnoise → ℝ)
    (energy_res_estimate : List ℝ → ℝ → ℝ → ℝ → ℝ) (d : Detector) :
    ℝ × Detector :=
  let e := energy_res_estimate d.freqs d.t_pabsb (sptot d.noise) d.eEabsb
  (e, { d with eres := some e })

/-- Concrete TES holder used for evaluation: one sensor of length `100e-6`. -/
def wTES : TES :=
  { nTES := 1, l := 1e-4, l_overlap := 0, rl := 1, r0 := 1, rsh := 1,
    beta := 0, LG := 1, L := 1, tau0 := 1, Gep := 1, vbias := 1, t0 := 1,
    tload := 1, t_mc := 1, n := 5 }

/-- Concrete QET holder used for evaluation. -/
def wQET : QET :=
  { l_fin := 1e-4, h_fin := 6e-7, a_fin := 1e-8, eQPabsb := 1 / 2,
    ePQP := 1 / 2, TES := wTES }

/-- Concrete square absorber used for evaluation. -/
def wAbs : Absorber :=
  { SA := 4e-4, pattern_SA := 1e-8, R := 1e-2, w_safety := 5e-4,
    shape := "square", scattering_length := 0.0019488 }

/-- Concrete absorber with an unrecognized shape tag. -/
def wAbsBad : Absorber :=
  { wAbs with shape := "hexagon" }

/-- The detector built from `wAbs` and `wQET` with `passive = 0`. -/
def wDet : Detector := (mkDet "w" wAbs wQET 0 1 []).getD default

theorem mkDet_wDet : mkDet "w" wAbs wQET 0 1 [] = some wDet := rfl

/-- Helper: every stored field of a successfully constructed detector equals
its defining expression from the constructor. -/
theorem mkDet_fields {name : String} {absorber : Absorber} {qet : QET}
    {passive : ℤ} {n_channel : ℕ} {freqs : List ℝ} {d : Detector}
    (h : mkDet name absorber qet passive n_channel freqs = some d) :
    SA_passive_opt absorber qet passive n_channel = some d.SA_passive ∧
    d.SA_active = SA_active qet n_channel ∧
    d.close_packed = close_packed absorber qet n_channel ∧
    d.cells_fit = cells_fit absorber qet ∧
    d.fSA_qpabsorb = (d.SA_passive + SA_active qet n_channel) / absorber.SA ∧
    d.ePcollect
      = SA_active qet n_channel / (SA_active qet n_channel + d.SA_passive) ∧
    d.t_pabsb = PD2_absb_time * (absorber.scattering_length / PD2_lscat)
      * (PD2_fSA_qpabsb / d.fSA_qpabsorb) ∧
    d.w_collect = 1 / d.t_pabsb ∧
    d.e156 = e156 ∧
    d.eEabsb = e156 * d.ePcollect * qet.eQPabsb * qet.ePQP ∧
    d.fSA_active = SA_active qet n_channel / absorber.SA ∧
    d.fSA_passive = d.SA_passive / absorber.SA ∧
    d.e_downconvert = 1 / 4000 ∧
    d.kpb = 1.55e-4 ∧
    d.nkpb = 4 ∧
    d.absorber = absorber := by
  obtain ⟨s, hs, rfl⟩ := Option.map_eq_some'.mp h
  exact ⟨hs, rfl, rfl, rfl, rfl, rfl, rfl, rfl, rfl, rfl, rfl, rfl, rfl,
    rfl, rfl, rfl⟩

/-- Helper: the per-cell passive rail area is nonnegative when the pattern
area is. -/
theorem a_passiveQET_nonneg (absorber : Absorber) (qet : QET)
    (n_channel : ℕ) (hp : 0 ≤ absorber.pattern_SA) :
    0 ≤ a_passiveQET absorber qet n_channel := by
  have ha : 0 ≤ a_cell absorber qet n_channel :=
    div_nonneg hp (by positivity)
  unfold a_passiveQET
  split_ifs with hgt
  · have h0 : 0 ≤ l_cell absorber qet n_channel := Real.sqrt_nonneg _
    have hd : 0 ≤ l_cell absorber qet n_channel - y_cell qet :=
      sub_nonneg.mpr (le_of_lt hgt)
    have hw1 : (0 : ℝ) ≤ w_rail_main := by norm_num [w_rail_main]
    have hw2 : (0 : ℝ) ≤ w_railQET := by norm_num [w_railQET]
    exact add_nonneg (mul_nonneg h0 hw1) (mul_nonneg hd hw2)
  · have h0 : 0 ≤ y_cell qet :=
      le_trans (Real.sqrt_nonneg _) (not_lt.mp hgt)
    exact mul_nonneg (div_nonneg ha h0) (by norm_num [w_rail_main])

/-- Helper: any value the constructor assigns to `_SA_passive` is
nonnegative, given nonnegative pattern area and safety margin and
`2*w_safety ≤ R`. -/
theorem SA_passive_opt_nonneg {absorber : Absorber} {qet : QET}
    {passive : ℤ} {n_channel : ℕ} {s : ℝ}
    (hp : 0 ≤ absorber.pattern_SA) (hw : 0 ≤ absorber.w_safety)
    (hR : 2 * absorber.w_safety ≤ absorber.R)
    (hs : SA_passive_opt absorber qet passive n_channel = some s) :
    0 ≤ s := by
  have htp : 0 ≤ tes_passive absorber qet n_channel := by
    unfold tes_passive
    have h1 := a_passiveQET_nonneg absorber qet n_channel hp
    positivity
  have hRw : 0 ≤ absorber.R - absorber.w_safety := by linarith
  have hsqrt2 : Real.sqrt 2 ≤ 2 := by
    nlinarith [Real.sq_sqrt (show (0:ℝ) ≤ 2 by norm_num),
      Real.sqrt_nonneg 2]
  have hcyl : 0 ≤ tes_passive absorber qet n_channel + outer_ring absorber
      + inner_ring absorber + inner_vertical_rail absorber
      + outer_vertical_rail absorber + total_alignment := by
    have hor : 0 ≤ outer_ring absorber := by
      unfold outer_ring
      have hpi := Real.pi_nonneg
      have hw1 : (0 : ℝ) ≤ w_rail_main := by norm_num [w_rail_main]
      positivity
    have hir : 0 ≤ inner_ring absorber := by
      unfold inner_ring
      exact div_nonneg hor (Real.sqrt_nonneg 2)
    have hivr : 0 ≤ inner_vertical_rail absorber := by
      unfold inner_vertical_rail
      have h1 : (0 : ℝ) ≤ 1 - Real.sqrt 2 / 2 := by linarith
      have hw1 : (0 : ℝ) ≤ w_rail_main := by norm_num [w_rail_main]
      positivity
    have hovr : 0 ≤ outer_vertical_rail absorber := by
      unfold outer_vertical_rail
      have h1 : (0 : ℝ) ≤ 1 + Real.sqrt 2 / 2 := by
        have := Real.sqrt_nonneg 2
        linarith
      have hw1 : (0 : ℝ) ≤ w_rail_main := by norm_num [w_rail_main]
      positivity
    have hta : (0 : ℝ) ≤ total_alignment := by
      norm_num [total_alignment, one_alignment_window]
    linarith
  have hsquare : 0 ≤ tes_passive absorber qet n_channel
      + 2 * (absorber.R - 2 * absorber.w_safety) * w_rail_main
      + 2 * one_alignment_window := by
    have h1 : 0 ≤ absorber.R - 2 * absorber.w_safety := by linarith
    have h2 : (0 : ℝ) ≤ 2 * (absorber.R - 2 * absorber.w_safety)
        * w_rail_main := by
      have hw1 : (0 : ℝ) ≤ w_rail_main := by norm_num [w_rail_main]
      positivity
    have h3 : (0 : ℝ) ≤ 2 * one_alignment_window := by
      norm_num [one_alignment_window]
    linarith
  simp only [SA_passive_opt] at hs
  split_ifs at hs with h1 h2 h3 h4 h5
  all_goals try exact le_of_eq (Option.some_inj.mp hs)
  all_goals try exact (Option.some_inj.mp hs) ▸ hsquare
  all_goals exact (Option.some_inj.mp hs) ▸ hcyl

/-- C1: for every valid Detector construction, the stored total
energy-absorption efficiency equals
`eEabsb = 0.8690 * ePcollect * QET.eQPabsb * QET.ePQP` exactly; neither the
phonon-downconversion factor nor the coverage fraction enters the product. -/
theorem eEabsb_formula (name : String) (absorber : Absorber) (qet : QET)
    (passive : ℤ) (n_channel : ℕ) (freqs : List ℝ) (d : Detector)
    (h : mkDet name absorber qet passive n_channel freqs = some d) :
    d.eEabsb = 0.8690 * d.ePcollect * qet.eQPabsb * qet.ePQP := by
  obtain ⟨-, -, -, -, -, -, -, -, -, hE, -, -, -, -, -, -⟩ := mkDet_fields h
  rw [hE]
  rfl

/-- C1 witness: the formula evaluated on a concrete successful construction. -/
theorem eEabsb_formula_witness :
    mkDet "w" wAbs wQET 0 1 [] = some wDet ∧
    wDet.eEabsb = 0.8690 * wDet.ePcollect * wQET.eQPabsb * wQET.ePQP :=
  ⟨mkDet_wDet, eEabsb_formula "w" wAbs wQET 0 1 [] wDet mkDet_wDet⟩

/-- C2: `close_packed` is true with
`a_passiveQET = (a_cell/y_cell)*w_rail_main` when `l_cell ≤ y_cell`, and
false with `a_passiveQET = l_cell*w_rail_main + (l_cell - y_cell)*w_railQET`
when `l_cell > y_cell`; the rail widths are `6e-6` and `3e-6`. -/
theorem close_packed_spec (name : String) (absorber : Absorber) (qet : QET)
    (passive : ℤ) (n_channel : ℕ) (freqs : List ℝ) (d : Detector)
    (h : mkDet name absorber qet passive n_channel freqs = some d) :
    (l_cell absorber qet n_channel ≤ y_cell qet →
      d.close_packed = true ∧
      a_passiveQET absorber qet n_channel
        = (a_cell absorber qet n_channel / y_cell qet) * w_rail_main) ∧
    (y_cell qet < l_cell absorber qet n_channel →
      d.close_packed = false ∧
      a_passiveQET absorber qet n_channel
        = l_cell absorber qet n_channel * w_rail_main
          + (l_cell absorber qet n_channel - y_cell qet) * w_railQET) ∧
    w_rail_main = 6e-6 ∧ w_railQET = 3e-6 := by
  obtain ⟨-, -, hcp, -, -, -, -, -, -, -, -, -, -, -, -, -⟩ := mkDet_fields h
  refine ⟨fun hle => ?_, fun hlt => ?_, rfl, rfl⟩
  · have hng : ¬ (l_cell absorber qet n_channel > y_cell qet) :=
      not_lt.mpr hle
    rw [hcp]
    unfold close_packed a_passiveQET
    rw [if_neg hng, if_neg hng]
    exact ⟨rfl, rfl⟩
  · rw [hcp]
    unfold close_packed a_passiveQET
    rw [if_pos hlt, if_pos hlt]
    exact ⟨rfl, rfl⟩

/-- C2 witness: a concrete close-packed construction
(`l_cell = 1e-4 ≤ 3e-4 = y_cell`). -/
theorem close_packed_spec_witness :
    mkDet "w" wAbs wQET 0 1 [] = some wDet ∧
    l_cell wAbs wQET 1 ≤ y_cell wQET ∧
    wDet.close_packed = true ∧
    a_passiveQET wAbs wQET 1
      = (a_cell wAbs wQET 1 / y_cell wQET) * w_rail_main := by
  have hle : l_cell wAbs wQET 1 ≤ y_cell wQET := by
    have ha : a_cell wAbs wQET 1 = 1e-8 := by
      norm_num [a_cell, wAbs, wQET, wTES]
    have hl : l_cell wAbs wQET 1 = 1e-4 := by
      rw [l_cell, ha, show (1e-8 : ℝ) = (1e-4) ^ 2 by norm_num,
        Real.sqrt_sq (by norm_num)]
    rw [hl]
    norm_num [y_cell, wQET, wTES]
  obtain ⟨h1, h2⟩ :=
    (close_packed_spec "w" wAbs wQET 0 1 [] wDet mkDet_wDet).1 hle
  exact ⟨mkDet_wDet, hle, h1, h2⟩

/-- C3: the stored phonon-absorption time constant equals
`t_pabsb = 20e-6 * (scattering_length / 0.0019488) * (0.0214 / fSA_qpabsorb)`;
it is strictly positive when `fSA_qpabsorb > 0` and `scattering_length > 0`,
and `w_collect` is its exact reciprocal. -/
theorem t_pabsb_spec (name : String) (absorber : Absorber) (qet : QET)
    (passive : ℤ) (n_channel : ℕ) (freqs : List ℝ) (d : Detector)
    (h : mkDet name absorber qet passive n_channel freqs = some d)
    (hf : 0 < d.fSA_qpabsorb) (hl : 0 < absorber.scattering_length) :
    d.t_pabsb = 20e-6 * (absorber.scattering_length / 0.0019488)
      * (0.0214 / d.fSA_qpabsorb) ∧
    0 < d.t_pabsb ∧ d.w_collect = 1 / d.t_pabsb := by
  obtain ⟨-, -, -, -, -, -, hT, hW, -, -, -, -, -, -, -, -⟩ := mkDet_fields h
  refine ⟨by rw [hT]; rfl, ?_, hW⟩
  rw [hT]
  exact mul_pos
    (mul_pos (by norm_num [PD2_absb_time])
      (div_pos hl (by norm_num [PD2_lscat])))
    (div_pos (by norm_num [PD2_fSA_qpabsb]) hf)

/-- C3 witness: the time-constant facts evaluated on a concrete
construction with positive coverage fraction and scattering length. -/
theorem t_pabsb_spec_witness :
    (0 : ℝ) < wDet.fSA_qpabsorb ∧ 0 < wAbs.scattering_length ∧
    wDet.t_pabsb = 20e-6 * (wAbs.scattering_length / 0.0019488)
      * (0.0214 / wDet.fSA_qpabsorb) ∧
    0 < wDet.t_pabsb ∧ wDet.w_collect = 1 / wDet.t_pabsb := by
  have hf : (0 : ℝ) < wDet.fSA_qpabsorb := by
    have e : wDet.fSA_qpabsorb = (0 + SA_active wQET 1) / wAbs.SA := rfl
    rw [e]
    norm_num [SA_active, wQET, wTES, wAbs]
  have hl : (0 : ℝ) < wAbs.scattering_length := by norm_num [wAbs]
  exact ⟨hf, hl, t_pabsb_spec "w" wAbs wQET 0 1 [] wDet mkDet_wDet hf hl⟩

/-- C4: an absorber shape tag other than "cylinder" and "square" leaves
`_SA_passive` unassigned, so construction fails at its first later use
(computing `fSA_qpabsorb`) and no Detector instance is produced. -/
theorem unrecognized_shape_no_detector (name : String) (absorber : Absorber)
    (qet : QET) (passive : ℤ) (n_channel : ℕ) (freqs : List ℝ)
    (h1 : absorber.shape ≠ "cylinder") (h2 : absorber.shape ≠ "square") :
    SA_passive_opt absorber qet passive n_channel = none ∧
    mkDet name absorber qet passive n_channel freqs = none := by
  have hs : SA_passive_opt absorber qet passive n_channel = none := by
    simp only [SA_passive_opt, if_neg h1, if_neg h2]
  exact ⟨hs, by simp [mkDet, hs]⟩

/-- C4 witness: a concrete absorber with shape "hexagon" produces no
instance. -/
theorem unrecognized_shape_witness :
    SA_passive_opt wAbsBad wQET 1 1 = none ∧
    mkDet "w" wAbsBad wQET 1 1 [] = none :=
  unrecognized_shape_no_detector "w" wAbsBad wQET 1 1 []
    (by decide) (by decide)

/-- C6: for a valid construction (nonnegative fin area, pattern area and
safety margin, with `2*w_safety ≤ R`), `SA_active ≥ 0`, `SA_passive ≥ 0`,
and `fSA_active + fSA_passive = fSA_qpabsorb`. -/
theorem area_fractions_spec (name : String) (absorber : Absorber) (qet : QET)
    (passive : ℤ) (n_channel : ℕ) (freqs : List ℝ) (d : Detector)
    (h : mkDet name absorber qet passive n_channel freqs = some d)
    (hfin : 0 ≤ qet.a_fin) (hp : 0 ≤ absorber.pattern_SA)
    (hw : 0 ≤ absorber.w_safety) (hR : 2 * absorber.w_safety ≤ absorber.R) :
    0 ≤ d.SA_active ∧ 0 ≤ d.SA_passive ∧
    d.fSA_active + d.fSA_passive = d.fSA_qpabsorb := by
  obtain ⟨hs, hA, -, -, hq, -, -, -, -, -, hfa, hfp, -, -, -, -⟩ :=
    mkDet_fields h
  refine ⟨?_, SA_passive_opt_nonneg hp hw hR hs, ?_⟩
  · rw [hA]
    unfold SA_active
    positivity
  · rw [hfa, hfp, hq, div_add_div_same, add_comm]

/-- C6 witness: the area and fraction facts evaluated on a concrete valid
construction. -/
theorem area_fractions_spec_witness :
    (0 : ℝ) ≤ wQET.a_fin ∧ (0 : ℝ) ≤ wAbs.pattern_SA ∧
    (0 : ℝ) ≤ wAbs.w_safety ∧ 2 * wAbs.w_safety ≤ wAbs.R ∧
    0 ≤ wDet.SA_active ∧ 0 ≤ wDet.SA_passive ∧
    wDet.fSA_active + wDet.fSA_passive = wDet.fSA_qpabsorb := by
  have h1 : (0 : ℝ) ≤ wQET.a_fin := by norm_num [wQET]
  have h2 : (0 : ℝ) ≤ wAbs.pattern_SA := by norm_num [wAbs]
  have h3 : (0 : ℝ) ≤ wAbs.w_safety := by norm_num [wAbs]
  have h4 : 2 * wAbs.w_safety ≤ wAbs.R := by norm_num [wAbs]
  obtain ⟨a, b, c⟩ :=
    area_fractions_spec "w" wAbs wQET 0 1 [] wDet mkDet_wDet h1 h2 h3 h4
  exact ⟨h1, h2, h3, h4, a, b, c⟩

/-- C7: for a square absorber with `passive = 0`, the stored `SA_passive` is
exactly 0, `ePcollect = 1` (given `SA_active > 0`), and
`fSA_qpabsorb = fSA_active` exactly. -/
theorem square_passive0_spec (name : String) (absorber : Absorber)
    (qet : QET) (n_channel : ℕ) (freqs : List ℝ) (d : Detector)
    (hsq : absorber.shape = "square")
    (h : mkDet name absorber qet 0 n_channel freqs = some d)
    (hact : 0 < d.SA_active) :
    d.SA_passive = 0 ∧ d.ePcollect = 1 ∧ d.fSA_qpabsorb = d.fSA_active := by
  obtain ⟨hs, hA, -, -, hq, hp, -, -, -, -, hfa, -, -, -, -, -⟩ :=
    mkDet_fields h
  have hz : d.SA_passive = 0 := by
    simp only [SA_passive_opt, hsq] at hs
    norm_num at hs
    exact hs.symm
  refine ⟨hz, ?_, ?_⟩
  · rw [hp, hz, add_zero]
    exact div_self (ne_of_gt (hA ▸ hact))
  · rw [hq, hfa, hz, zero_add]

/-- C7 witness: the square, passive-0 facts evaluated on the concrete
construction. -/
theorem square_passive0_witness :
    wAbs.shape = "square" ∧ mkDet "w" wAbs wQET 0 1 [] = some wDet ∧
    0 < wDet.SA_active ∧ wDet.SA_passive = 0 ∧ wDet.ePcollect = 1 ∧
    wDet.fSA_qpabsorb = wDet.fSA_active := by
  have hact : (0 : ℝ) < wDet.SA_active := by
    have e : wDet.SA_active = SA_active wQET 1 := rfl
    rw [e]
    norm_num [SA_active, wQET, wTES]
  obtain ⟨a, b, c⟩ :=
    square_passive0_spec "w" wAbs wQET 1 [] wDet rfl mkDet_wDet hact
  exact ⟨rfl, mkDet_wDet, hact, a, b, c⟩

/-- C8: with `QET_block = (2*l_fin + l)*(2*l_fin)`, the flag `cells_fit` is
false exactly when `QET_block * nTES > pattern_SA` (so true at equality),
and construction completes regardless of the flag (success is decided only
by the `SA_passive` branch). -/
theorem cells_fit_spec (name : String) (absorber : Absorber) (qet : QET)
    (passive : ℤ) (n_channel : ℕ) (freqs : List ℝ) (d : Detector)
    (h : mkDet name absorber qet passive n_channel freqs = some d) :
    (d.cells_fit = false ↔
      QET_block qet * (qet.TES.nTES : ℝ) > absorber.pattern_SA) ∧
    (QET_block qet * (qet.TES.nTES : ℝ) = absorber.pattern_SA →
      d.cells_fit = true) ∧
    (mkDet name absorber qet passive n_channel freqs).isSome
      = (SA_passive_opt absorber qet passive n_channel).isSome := by
  obtain ⟨-, -, -, hc, -, -, -, -, -, -, -, -, -, -, -, -⟩ := mkDet_fields h
  refine ⟨?_, ?_, by simp [mkDet]⟩
  · rw [hc]
    unfold cells_fit
    by_cases hgt : QET_block qet * (qet.TES.nTES : ℝ) > absorber.pattern_SA
    · simp [hgt]
    · simp [hgt]
  · intro he
    rw [hc]
    unfold cells_fit
    rw [if_neg (by rw [he]; exact lt_irrefl _)]

/-- C8 witness: the feasibility-flag facts evaluated on the concrete
construction. -/
theorem cells_fit_spec_witness :
    mkDet "w" wAbs wQET 0 1 [] = some wDet ∧
    (wDet.cells_fit = false ↔
      QET_block wQET * (wQET.TES.nTES : ℝ) > wAbs.pattern_SA) ∧
    (QET_block wQET * (wQET.TES.nTES : ℝ) = wAbs.pattern_SA →
      wDet.cells_fit = true) ∧
    (mkDet "w" wAbs wQET 0 1 []).isSome
      = (SA_passive_opt wAbs wQET 0 1).isSome :=
  ⟨mkDet_wDet, cells_fit_spec "w" wAbs wQET 0 1 [] wDet mkDet_wDet⟩

/-- C9: `calc_res` stores its computed scalar result in `eres` and returns
that same value, and a second call with unchanged stored state returns the
identical result, again leaving `eres` equal to the returned value.  The
external noise query and resolution estimator are deterministic pure
functions passed as parameters. -/
theorem calc_res_idempotent (sptot : TESnoise → ℝ)
    (ere : List ℝ → ℝ → ℝ → ℝ → ℝ) (d : Detector) :
    (d.calc_res sptot ere).2.eres = some (d.calc_res sptot ere).1 ∧
    ((d.calc_res sptot ere).2.calc_res sptot ere).1
      = (d.calc_res sptot ere).1 ∧
    ((d.calc_res sptot ere).2.calc_res sptot ere).2.eres
      = some ((d.calc_res sptot ere).2.calc_res sptot ere).1 :=
  ⟨rfl, rfl, rfl⟩

/-- C5 counterexample: `pE_thresh`, `p_subgap` and `p_notsubgap` are local
variables of the constructor and are not among the attributes assigned on
the instance, so the claim that they are stored as fields of the Detector
instance is false (under either the Python private `_x` naming used for the
other stored diagnostics, or the bare name). -/
theorem subgap_locals_not_stored :
    "_pE_thresh" ∉ detectorInitAttrs ∧ "pE_thresh" ∉ detectorInitAttrs ∧
    "_p_subgap" ∉ detectorInitAttrs ∧ "p_subgap" ∉ detectorInitAttrs ∧
    "_p_notsubgap" ∉ detectorInitAttrs ∧
    "p_notsubgap" ∉ detectorInitAttrs := by
  decide

/-- C5 amended: every construction stores `e_downconvert` (final value
`1/4000`), `kpb = 1.55e-4` and `nkpb = 4` as instance fields, and computes
`pE_thresh = 2*1.76*k_B*Tc`, `p_subgap = p_baresurface^3000` and
`p_notsubgap = 1 - p_subgap` as construction-local values that are not
stored on the instance; none of these enters the efficiency formula, which
is exactly `e156 * ePcollect * eQPabsb * ePQP`. -/
theorem stored_diagnostics_spec (name : String) (absorber : Absorber)
    (qet : QET) (passive : ℤ) (n_channel : ℕ) (freqs : List ℝ)
    (d : Detector) (Tc : ℝ)
    (h : mkDet name absorber qet passive n_channel freqs = some d) :
    d.e_downconvert = 1 / 4000 ∧ d.kpb = 1.55e-4 ∧ d.nkpb = 4 ∧
    pE_thresh Tc = 2 * 1.76 * boltzmann_k * Tc ∧
    p_subgap absorber qet d.SA_passive n_channel
      = ((absorber.SA - SA_active qet n_channel - d.SA_passive)
          / absorber.SA) ^ (3000 : ℕ) ∧
    p_notsubgap absorber qet d.SA_passive n_channel
      = 1 - p_subgap absorber qet d.SA_passive n_channel ∧
    d.eEabsb = e156 * d.ePcollect * qet.eQPabsb * qet.ePQP ∧
    "_pE_thresh" ∉ detectorInitAttrs ∧ "_p_subgap" ∉ detectorInitAttrs ∧
    "_p_notsubgap" ∉ detectorInitAttrs := by
  obtain ⟨-, -, -, -, -, -, -, -, -, hE, -, -, hd, hk, hn, -⟩ :=
    mkDet_fields h
  exact ⟨hd, hk, hn, rfl, rfl, rfl, hE, by decide, by decide, by decide⟩

/-- C5 witness: the amended stored-diagnostics facts evaluated on the
concrete construction. -/
theorem stored_diagnostics_witness :
    mkDet "w" wAbs wQET 0 1 [] = some wDet ∧
    wDet.e_downconvert = 1 / 4000 ∧ wDet.kpb = 1.55e-4 ∧ wDet.nkpb = 4 ∧
    pE_thresh 1 = 2 * 1.76 * boltzmann_k * 1 ∧
    p_subgap wAbs wQET wDet.SA_passive 1
      = ((wAbs.SA - SA_active wQET 1 - wDet.SA_passive) / wAbs.SA)
          ^ (3000 : ℕ) ∧
    p_notsubgap wAbs wQET wDet.SA_passive 1
      = 1 - p_subgap wAbs wQET wDet.SA_passive 1 ∧
    wDet.eEabsb = e156 * wDet.ePcollect * wQET.eQPabsb * wQET.ePQP ∧
    "_pE_thresh" ∉ detectorInitAttrs ∧ "_p_subgap" ∉ detectorInitAttrs ∧
    "_p_notsubgap" ∉ detectorInitAttrs :=
  ⟨mkDet_wDet,
    stored_diagnostics_spec "w" wAbs wQET 0 1 [] wDet 1 mkDet_wDet⟩

/-- C10: for a square absorber with a passive flag outside 0 and 1,
`_SA_passive` is never assigned and no Detector instance is produced, the
same failure mode as an unrecognized shape; the flag is never validated. -/
theorem square_invalid_passive_no_detector (name : String)
    (absorber : Absorber) (qet : QET) (passive : ℤ) (n_channel : ℕ)
    (freqs : List ℝ) (hsq : absorber.shape = "square")
    (h1 : passive ≠ 1) (h0 : passive ≠ 0) :
    SA_passive_opt absorber qet passive n_channel = none ∧
    mkDet name absorber qet passive n_channel freqs = none := by
  have hs : SA_passive_opt absorber qet passive n_channel = none := by
    simp only [SA_passive_opt, hsq, if_neg h1, if_neg h0]
    simp
  exact ⟨hs, by simp [mkDet, hs]⟩

/-- C10 witness: the concrete square absorber with `passive = 2` produces no
instance. -/
theorem square_invalid_passive_witness :
    SA_passive_opt wAbs wQET 2 1 = none ∧
    mkDet "w" wAbs wQET 2 1 [] = none :=
  square_invalid_passive_no_detector "w" wAbs wQET 2 1 [] rfl
    (by decide) (by decide)

end

end DarkOpt
